import Mathlib

/-!
Verification development for the laya outbound-call orchestration core.

The file embeds, as executable Lean definitions, the two pieces of the
repository that the checked claims concern:

* the dashboard client state reconciler (`frontend/src/App.jsx`,
  `handleWebSocketMessage`) together with the reconnect logic of the
  WebSocket hook (`frontend/src/hooks/useWebSocket.js`), and
* the call-engine scenario runtime
  (`voximplant/scenarios/registration_recovery.js` and its structurally
  identical dormant-reactivation twin), modelled as a trace semantics:
  a run maps an environment (parse outcome, AI-connection outcome,
  session events, webhook-delivery outcomes) to the list of actions the
  scenario performs, in order.

Theorems about these definitions then settle each claim.
-/

/- ===================================================================
   Dashboard client state reconciler (frontend/src/App.jsx)
   =================================================================== -/

/-- One entry of the dashboard `activeCalls` array, as built in the
`call_started` branch of `handleWebSocketMessage` in `App.jsx`. -/
structure ActiveCall where
  call_id : String
  lead_id : String
  lead_name : String
  timestamp : String
deriving DecidableEq, Repr

/-- One entry of the dashboard `recentResults` array, as built in the
`call_result` branch of `handleWebSocketMessage` in `App.jsx`.  The
`timestamp` is the `new Date().toISOString()` value taken at processing
time. -/
structure ResultEntry where
  call_id : String
  disposition : String
  cx_score : Int
  summary : String
  timestamp : String
deriving DecidableEq, Repr

/-- A broadcast-channel message as seen by the dashboard: a JSON object
with a `type` field.  The backend relays the runtime's webhook events
verbatim, so `call_error` messages do arrive on this channel even though
`App.jsx` has no branch for them; `other` stands for any further type. -/
inductive WsMessage where
  | call_started (call_id lead_id lead_name timestamp : String)
  | call_ended (call_id : String)
  | call_result (call_id disposition : String) (cx_score : Int) (summary : String)
  | call_error (call_id error : String)
  | other (type : String)
deriving DecidableEq, Repr

/-- The reconciler's local state: the `activeCalls` and `recentResults`
React state arrays of `App.jsx`. -/
structure DashboardState where
  activeCalls : List ActiveCall
  recentResults : List ResultEntry
deriving DecidableEq, Repr

/-- Initial dashboard state: both `useState([])` arrays empty. -/
def initialDashboard : DashboardState := ⟨[], []⟩

/-- Embedding of `handleWebSocketMessage` from `App.jsx` (lines 17-48).
`call_started` appends to `activeCalls` (JS spread `[...prev, entry]`);
`call_ended` filters out entries whose `call_id` equals the message's;
`call_result` prepends a result entry and keeps the first 10
(`[entry, ...prev].slice(0, 10)`); every other message type, including
`call_error`, falls through the if/else chain and leaves the state
unchanged.  `now` is the ISO timestamp taken in the `call_result`
branch. -/
def handleWebSocketMessage (now : String) (s : DashboardState) (m : WsMessage) :
    DashboardState :=
  match m with
  | .call_started cid lid lname ts =>
      { s with activeCalls := s.activeCalls ++ [⟨cid, lid, lname, ts⟩] }
  | .call_ended cid =>
      { s with activeCalls := s.activeCalls.filter fun c => !(c.call_id == cid) }
  | .call_result cid disp sc summ =>
      { s with recentResults := (⟨cid, disp, sc, summ, now⟩ :: s.recentResults).take 10 }
  | .call_error _ _ => s
  | .other _ => s

/-- Process a sequence of timestamped broadcast messages in order. -/
def runDashboard (s : DashboardState) : List (String × WsMessage) → DashboardState
  | [] => s
  | (now, m) :: rest => runDashboard (handleWebSocketMessage now s m) rest

/-- The result entry a single message contributes (empty for
non-`call_result` messages). -/
def resultEntryOf (now : String) : WsMessage → List ResultEntry
  | .call_result cid disp sc summ => [⟨cid, disp, sc, summ, now⟩]
  | _ => []

/-- All result entries contributed by a message sequence, in arrival
order (oldest first). -/
def collectResults (msgs : List (String × WsMessage)) : List ResultEntry :=
  (msgs.map fun p => resultEntryOf p.1 p.2).flatten

theorem collectResults_cons (now : String) (m : WsMessage)
    (rest : List (String × WsMessage)) :
    collectResults ((now, m) :: rest) = resultEntryOf now m ++ collectResults rest := by
  simp [collectResults]

theorem take_append_take {α : Type} (xs l : List α) (n : Nat) :
    (xs ++ l.take n).take n = (xs ++ l).take n := by
  rw [List.take_append_eq_append_take, List.take_append_eq_append_take, List.take_take,
    Nat.min_eq_left (Nat.sub_le n xs.length)]

theorem runDashboard_recentResults (msgs : List (String × WsMessage)) :
    ∀ s : DashboardState, s.recentResults.length ≤ 10 →
      (runDashboard s msgs).recentResults
        = ((collectResults msgs).reverse ++ s.recentResults).take 10 := by
  induction msgs with
  | nil =>
      intro s h
      simp [runDashboard, collectResults, List.take_of_length_le h]
  | cons p rest ih =>
      intro s h
      obtain ⟨now, m⟩ := p
      have hrun : runDashboard s ((now, m) :: rest)
          = runDashboard (handleWebSocketMessage now s m) rest := rfl
      cases m with
      | call_result cid disp sc summ =>
          have hstep :
              (handleWebSocketMessage now s (.call_result cid disp sc summ)).recentResults
                = ((⟨cid, disp, sc, summ, now⟩ : ResultEntry) :: s.recentResults).take 10 := rfl
          have hlen :
              (handleWebSocketMessage now s (.call_result cid disp sc summ)).recentResults.length ≤ 10 := by
            rw [hstep]; exact List.length_take_le _ _
          have hih := ih _ hlen
          rw [hstep] at hih
          rw [hrun, hih, collectResults_cons]
          simp only [resultEntryOf, List.reverse_append, List.reverse_cons,
            List.reverse_nil, List.nil_append, List.append_assoc, List.singleton_append]
          exact take_append_take _ _ 10
      | call_started cid lid lname ts =>
          have hstep :
              (handleWebSocketMessage now s (.call_started cid lid lname ts)).recentResults
                = s.recentResults := rfl
          have hih := ih _ (by rw [hstep]; exact h)
          rw [hstep] at hih
          rw [hrun, hih, collectResults_cons]
          simp [resultEntryOf]
      | call_ended cid =>
          have hstep :
              (handleWebSocketMessage now s (.call_ended cid)).recentResults
                = s.recentResults := rfl
          have hih := ih _ (by rw [hstep]; exact h)
          rw [hstep] at hih
          rw [hrun, hih, collectResults_cons]
          simp [resultEntryOf]
      | call_error cid err =>
          have hstep :
              (handleWebSocketMessage now s (.call_error cid err)).recentResults
                = s.recentResults := rfl
          have hih := ih _ (by rw [hstep]; exact h)
          rw [hstep] at hih
          rw [hrun, hih, collectResults_cons]
          simp [resultEntryOf]
      | other ty =>
          have hstep :
              (handleWebSocketMessage now s (.other ty)).recentResults
                = s.recentResults := rfl
          have hih := ih _ (by rw [hstep]; exact h)
          rw [hstep] at hih
          rw [hrun, hih, collectResults_cons]
          simp [resultEntryOf]

/-- C8: the dashboard's `RecentResults` buffer never exceeds 10 entries
and is always ordered newest-first.  Concretely: processing a
`call_result` message yields exactly `(entry :: prev).take 10`
(prepend, and drop the oldest when 10 entries are already held), and a
reconciler run from the initial state leaves `recentResults` equal to
the 10 newest result entries of the processed sequence, newest first,
hence of length at most 10. -/
theorem C8_recent_results_bounded_newest_first :
    (∀ now s cid disp sc summ,
        (handleWebSocketMessage now s (.call_result cid disp sc summ)).recentResults
          = ((⟨cid, disp, sc, summ, now⟩ : ResultEntry) :: s.recentResults).take 10)
    ∧ ∀ msgs : List (String × WsMessage),
        (runDashboard initialDashboard msgs).recentResults
            = (collectResults msgs).reverse.take 10
        ∧ (runDashboard initialDashboard msgs).recentResults.length ≤ 10 := by
  refine ⟨fun now s cid disp sc summ => rfl, fun msgs => ?_⟩
  have h := runDashboard_recentResults msgs initialDashboard (by simp [initialDashboard])
  constructor
  · simpa [initialDashboard] using h
  · rw [h]
    exact List.length_take_le _ _

/-- C1 counterexample: `handleWebSocketMessage` has no `call_error`
branch, so after processing the terminal event `call_error` for call
`c1` the `ActiveCalls` set still contains an entry keyed `c1`. -/
theorem C1_counterexample :
    ((handleWebSocketMessage "t2"
        (handleWebSocketMessage "t1" initialDashboard
          (.call_started "c1" "l1" "Dana" "t0"))
        (.call_error "c1" "boom")).activeCalls.any fun c => c.call_id == "c1") = true := by
  decide

/-- C1 (amended): after a `call_ended` event for a `call_id` is
processed, `ActiveCalls` contains no entry with that `call_id`, and this
is preserved by duplicate deliveries of either terminal event; a
`call_error` event, however, never removes an entry (the reconciler has
no branch for it). -/
theorem C1_amended_terminal_removal (now now2 now3 : String) (s : DashboardState)
    (cid : String) :
    (((handleWebSocketMessage now s (.call_ended cid)).activeCalls.all
        fun c => !(c.call_id == cid)) = true)
    ∧ handleWebSocketMessage now2 (handleWebSocketMessage now s (.call_ended cid))
        (.call_ended cid)
      = handleWebSocketMessage now s (.call_ended cid)
    ∧ ∀ err, handleWebSocketMessage now3 (handleWebSocketMessage now s (.call_ended cid))
        (.call_error cid err)
      = handleWebSocketMessage now s (.call_ended cid) := by
  refine ⟨?_, ?_, fun err => rfl⟩
  · simp only [handleWebSocketMessage, List.all_eq_true]
    intro c hc
    exact (List.mem_filter.mp hc).2
  · simp [handleWebSocketMessage, List.filter_filter]

/-- C2 counterexample: with call `c1` already present in `ActiveCalls`,
processing a duplicate `call_started` for `c1` appends a second entry
(length 2), so the add operation is not idempotent. -/
theorem C2_counterexample :
    (((handleWebSocketMessage "t1" initialDashboard
        (.call_started "c1" "l1" "Dana" "t0")).activeCalls.any
          fun c => c.call_id == "c1") = true)
    ∧ (handleWebSocketMessage "t2"
        (handleWebSocketMessage "t1" initialDashboard
          (.call_started "c1" "l1" "Dana" "t0"))
        (.call_started "c1" "l1" "Dana" "t0")).activeCalls.length = 2 := by
  decide

/-- C2 (amended): the remove side is idempotent — a `call_ended` whose
`call_id` is absent from `ActiveCalls` leaves the state unchanged — but
the add side is not: `call_started` unconditionally appends one entry,
so a duplicate `call_started` creates a second entry for the same
`call_id`. -/
theorem C2_amended_remove_idempotent_add_appends :
    (∀ (now : String) (s : DashboardState) (cid : String),
        (s.activeCalls.all fun c => !(c.call_id == cid)) = true →
          handleWebSocketMessage now s (.call_ended cid) = s)
    ∧ ∀ (now : String) (s : DashboardState) (cid lid lname ts : String),
        (handleWebSocketMessage now s (.call_started cid lid lname ts)).activeCalls.length
          = s.activeCalls.length + 1 := by
  constructor
  · intro now s cid h
    have : s.activeCalls.filter (fun c => !(c.call_id == cid)) = s.activeCalls :=
      List.filter_eq_self.mpr (by simpa [List.all_eq_true] using h)
    simp [handleWebSocketMessage, this]
  · intro now s cid lid lname ts
    simp [handleWebSocketMessage]

/-- C2 witness: at a concrete input, removing an absent call is a no-op
and adding one call grows `ActiveCalls` by one. -/
theorem C2_amended_witness :
    handleWebSocketMessage "t" initialDashboard (.call_ended "c9") = initialDashboard
    ∧ (handleWebSocketMessage "t" initialDashboard
        (.call_started "c1" "l1" "Dana" "t0")).activeCalls.length
      = initialDashboard.activeCalls.length + 1 :=
  ⟨C2_amended_remove_idempotent_add_appends.1 "t" initialDashboard "c9" (by decide),
   C2_amended_remove_idempotent_add_appends.2 "t" initialDashboard "c1" "l1" "Dana" "t0"⟩

/- ===================================================================
   WebSocket hook reconnect logic (frontend/src/hooks/useWebSocket.js)
   =================================================================== -/

/-- The WebSocket URL default from `useWebSocket.js`. -/
def WS_URL : String := "ws://localhost:8000/ws/ui"

/-- Observable effects of the WebSocket hook's handlers. -/
inductive ClientAction where
  | log (msg : String)
  | setConnected (b : Bool)
  | scheduleReconnect (delayMs : Nat)
  | createSocket (url : String)
  | replayHistoricalEvent (m : WsMessage)
deriving DecidableEq, Repr

/-- Embedding of the `ws.onclose` handler of `useWebSocket.js` (lines
61-72): if the hook was cleaned up it returns immediately; otherwise it
logs, flips the connected flag, and schedules `connect` after the
literal delay 3000 ms.  The handler keeps no attempt counter, so the
model's `attempt` argument (the number of closures seen so far) is
ignored — the delay cannot depend on it. -/
def onCloseActions (_attempt : Nat) (isCleanedUp : Bool) : List ClientAction :=
  if isCleanedUp then []
  else [.log "WebSocket disconnected", .setConnected false, .scheduleReconnect 3000]

/-- Embedding of the `connect` function of `useWebSocket.js` (lines
25-78): after the cleanup guard it logs and creates a new WebSocket on
`WS_URL`; it performs no fetch of past events and no state replay. -/
def connectActions (isCleanedUp : Bool) : List ClientAction :=
  if isCleanedUp then [.log "Connect called after cleanup, ignoring"]
  else [.log "Attempting WebSocket connection", .createSocket WS_URL]

/-- Recognises the reconnect-scheduling action. -/
def isReconnectAction : ClientAction → Bool
  | .scheduleReconnect _ => true
  | _ => false

/-- Recognises a historical-event replay action. -/
def isReplayAction : ClientAction → Bool
  | .replayHistoricalEvent _ => true
  | _ => false

/-- C9: on every unexpected closure (hook not cleaned up) the client
schedules exactly one reconnect, always with the fixed 3000 ms delay;
the delay is independent of how many closures preceded it (no backoff);
and the reconnect path performs no historical event replay — `connect`
only logs and opens a fresh socket. -/
theorem C9_fixed_reconnect_no_replay :
    (∀ n m : Nat, onCloseActions n false = onCloseActions m false)
    ∧ (∀ n : Nat,
        (onCloseActions n false).filter isReconnectAction = [.scheduleReconnect 3000])
    ∧ ((connectActions false).all fun a => !(isReplayAction a)) = true
    ∧ connectActions false
        = [.log "Attempting WebSocket connection", .createSocket WS_URL] := by
  refine ⟨fun n m => rfl, fun n => rfl, rfl, rfl⟩

/- ===================================================================
   Call engine scenario runtime
   (voximplant/scenarios/registration_recovery.js; the
   dormant-reactivation scenario in src/unnamed/part_004 has the same
   handler structure and is covered by the same embedding)
   =================================================================== -/

/-- The lead context parsed from `call.customData()` by `JSON.parse`.
Each field access on the parsed JS object may yield `undefined`, hence
`Option`. -/
structure LeadData where
  call_id : Option String
  lead_id : Option String
  name : Option String
  leadType : Option String
  drop_stage : Option String
  phone : Option String
deriving DecidableEq, Repr

/-- The scenario's per-call `callData` object.  Before the parse
succeeds it is the empty object `{}`, so every field reads back
`undefined` (`none`). -/
structure CallData where
  call_id : Option String
  lead_id : Option String
  lead_name : Option String
  lead_type : Option String
  drop_stage : Option String
deriving DecidableEq, Repr

/-- The empty `callData = {}` object from the top of the CallAlerting
handler. -/
def emptyCallData : CallData := ⟨none, none, none, none, none⟩

/-- Builds `callData` from the parsed lead data (scenario lines
130-136); `leadData.drop_stage || "unknown"` treats both `undefined`
and the empty string as falsy. -/
def mkCallData (lead : LeadData) : CallData :=
  { call_id := lead.call_id
    lead_id := lead.lead_id
    lead_name := lead.name
    lead_type := lead.leadType
    drop_stage :=
      match lead.drop_stage with
      | some s => if s = "" then some "unknown" else some s
      | none => some "unknown" }

/-- A webhook envelope as passed to `sendWebhook`.  `Option` fields are
JS values that may be `undefined`. -/
inductive Payload where
  | call_started (call_id lead_id lead_name lead_type : Option String)
      (voximplant_call_id : String) (timestamp : String)
  | call_result (call_id lead_id : Option String)
      (disposition : String) (cx_score : Int) (summary : String)
  | call_ended (call_id : Option String)
  | call_error (call_id : Option String) (error : String)
deriving DecidableEq, Repr

/-- The value of the payload's `type` field. -/
def Payload.typeName : Payload → String
  | .call_started _ _ _ _ _ _ => "call_started"
  | .call_result _ _ _ _ _ => "call_result"
  | .call_ended _ => "call_ended"
  | .call_error _ _ => "call_error"

/-- A key/value field of an Option-typed JS value: `JSON.stringify`
drops keys whose value is `undefined`. -/
def optField (key : String) : Option String → List (String × String)
  | none => []
  | some v => [(key, v)]

/-- The key/value fields of `JSON.stringify(payload)`, in object order,
with `undefined`-valued keys omitted. -/
def Payload.serializedFields : Payload → List (String × String)
  | .call_started cid lid lname ltype vox ts =>
      [("type", "call_started")] ++ optField "call_id" cid ++ optField "lead_id" lid
        ++ optField "lead_name" lname ++ optField "lead_type" ltype
        ++ [("voximplant_call_id", vox), ("timestamp", ts)]
  | .call_result cid lid disp sc summ =>
      [("type", "call_result")] ++ optField "call_id" cid ++ optField "lead_id" lid
        ++ [("disposition", disp), ("cx_score", toString sc), ("summary", summ)]
  | .call_ended cid =>
      [("type", "call_ended")] ++ optField "call_id" cid
  | .call_error cid err =>
      [("type", "call_error")] ++ optField "call_id" cid ++ [("error", err)]

/-- How one `Net.httpRequestAsync` POST settles: with an HTTP response
(any status — the scenario never inspects it) or with a network
error. -/
inductive WebhookOutcome where
  | response (status : Nat)
  | networkError (msg : String)
deriving DecidableEq, Repr

/-- An observable step of the scenario runtime, in execution order.
`httpPost` is the start of a webhook POST; `httpResponse`/`httpFailure`
is the settlement of that POST's promise; `scheduleHangupAfterMs ms`
models `setTimeout(() => call.hangup(), ms)`. -/
inductive RtAction where
  | answerCall
  | log (msg : String)
  | httpPost (payload : Payload)
  | httpResponse (status : Nat)
  | httpFailure (msg : String)
  | connectAI
  | bridgeAudio
  | toolResponseSent
  | scheduleHangupAfterMs (ms : Nat)
  | closeAI
  | hangupCall
  | terminateScenario
deriving DecidableEq, Repr

/-- Embedding of `sendWebhook` (scenario lines 294-307): one POST; on a
response it logs success (never looking at the status), on a network
error the catch logs the failure; in both cases the awaited promise has
settled before the function returns. -/
def sendWebhookActs (p : Payload) (o : WebhookOutcome) : List RtAction :=
  match o with
  | .response st =>
      [.httpPost p, .httpResponse st, .log ("Webhook sent: " ++ p.typeName)]
  | .networkError m =>
      [.httpPost p, .httpFailure m, .log ("Failed to send webhook: " ++ m)]

/-- An external event delivered to the bridged session: a Gemini tool
call, a remote hangup (`CallEvents.Disconnected`), or a carrier failure
(`CallEvents.Failed`). -/
inductive SessionEvent where
  | toolCall (name : String) (disposition : String) (cx_score : Int) (summary : String)
  | disconnected
  | failed
deriving DecidableEq, Repr

/-- Embedding of the `ToolCall` listener (scenario lines 187-232): it
logs the call, and when the function name is `save_call_result` it
awaits the `call_result` webhook, acknowledges the tool call to the AI
engine, and schedules a hangup 4000 ms later.  Any other function name
only produces the logs. -/
def handleToolCall (o : WebhookOutcome) (cd : CallData)
    (name disposition : String) (cx_score : Int) (summary : String) : List RtAction :=
  [.log "Function called by Gemini:", .log ("   Name: " ++ name)] ++
  if name = "save_call_result" then
    [.log "Saving call result..."] ++
    sendWebhookActs (.call_result cd.call_id cd.lead_id disposition cx_score summary) o ++
    [.toolResponseSent, .log "Call result saved successfully", .scheduleHangupAfterMs 4000]
  else []

/-- Runs the bridged session's event listeners over the delivered
events.  `Disconnected` and `Failed` both emit `call_ended`, close the
AI connection and call `VoxEngine.terminate()`, after which no further
event is processed.  `f` supplies the settlement of the `k`-th webhook
POST of the scenario run. -/
def runSession (f : Nat → WebhookOutcome) (k : Nat) (cd : CallData) :
    List SessionEvent → List RtAction
  | [] => []
  | .toolCall name disp sc summ :: rest =>
      handleToolCall (f k) cd name disp sc summ ++
      runSession f (if name = "save_call_result" then k + 1 else k) cd rest
  | .disconnected :: _ =>
      [.log "Call disconnected"] ++ sendWebhookActs (.call_ended cd.call_id) (f k)
        ++ [.closeAI, .terminateScenario]
  | .failed :: _ =>
      [.log "Call failed"] ++ sendWebhookActs (.call_ended cd.call_id) (f k)
        ++ [.closeAI, .terminateScenario]

/-- Embedding of the CallAlerting handler's `catch` block (scenario
lines 268-284): log the error, await a `call_error` webhook built from
whatever `callData` holds at that point, hang up, terminate. -/
def catchActs (o : WebhookOutcome) (cd : CallData) (errMsg : String) : List RtAction :=
  [.log "Error in scenario:", .log errMsg] ++
  sendWebhookActs (.call_error cd.call_id errMsg) o ++
  [.hangupCall, .terminateScenario]

/-- Everything outside the scenario that determines one run:
the `JSON.parse(call.customData())` outcome, the outcome of awaiting
`Gemini.createLiveAPIClient`, the events delivered to the bridged
session, the settlement of each webhook POST (indexed in emission
order), `call.id()`, and the clock value used for the `call_started`
timestamp. -/
structure ScenarioEnv where
  customData : Except String LeadData
  aiConnect : Except String Unit
  sessionEvents : List SessionEvent
  webhookOutcomes : Nat → WebhookOutcome
  voxCallId : String
  nowIso : String

/-- Embedding of the CallAlerting handler (scenario lines 119-285) as
the ordered list of actions one run performs.  The call is answered; a
parse failure reaches the catch block with `callData` still empty; on
success the `call_started` webhook is awaited, then the AI connection
is established — if that await throws (e.g. the carrier drops the call
during setup), the catch block runs; the Disconnected/Failed/ToolCall
listeners exist only once the bridge is up. -/
def runScenario (env : ScenarioEnv) : List RtAction :=
  [.answerCall, .log "Call answered"] ++
  match env.customData with
  | .error msg => catchActs (env.webhookOutcomes 0) emptyCallData msg
  | .ok lead =>
      let cd := mkCallData lead
      [.log "Calling lead"] ++
      sendWebhookActs
        (.call_started cd.call_id cd.lead_id cd.lead_name cd.lead_type
          env.voxCallId env.nowIso)
        (env.webhookOutcomes 0) ++
      [.log "Initializing Gemini Live API...", .connectAI] ++
      match env.aiConnect with
      | .error msg => catchActs (env.webhookOutcomes 1) cd msg
      | .ok _ =>
          [.log "Connected to Gemini Live API", .bridgeAudio,
           .log "Audio bridge established"] ++
          runSession env.webhookOutcomes 1 cd env.sessionEvents

/- ===================================================================
   Trace predicates
   =================================================================== -/

/-- Recognises the start of a webhook POST. -/
def isPost : RtAction → Bool
  | .httpPost _ => true
  | _ => false

/-- Recognises the settlement of a webhook POST (response received or
network failure). -/
def isSettle : RtAction → Bool
  | .httpResponse _ => true
  | .httpFailure _ => true
  | _ => false

/-- Recognises a log action. -/
def isLogAct : RtAction → Bool
  | .log _ => true
  | _ => false

/-- A step the runtime itself takes, as opposed to logging and to the
environment's settlement of a POST. -/
def isRuntimeStep (a : RtAction) : Bool := !(isLogAct a) && !(isSettle a)

/-- The payloads POSTed in a trace, in order. -/
def postedPayloads (t : List RtAction) : List Payload :=
  t.filterMap fun a =>
    match a with
    | .httpPost p => some p
    | _ => none

/-- Recognises a `call_started` payload. -/
def isStartedPayload : Payload → Bool
  | .call_started _ _ _ _ _ _ => true
  | _ => false

/-- Recognises a `call_result` payload. -/
def isResultPayload : Payload → Bool
  | .call_result _ _ _ _ _ => true
  | _ => false

/-- Recognises a `call_ended` payload. -/
def isEndedPayload : Payload → Bool
  | .call_ended _ => true
  | _ => false

/-- Recognises a `call_error` payload. -/
def isErrorPayload : Payload → Bool
  | .call_error _ _ => true
  | _ => false

/-- Session events that make the runtime terminate the scenario. -/
def isTerminalEvent : SessionEvent → Bool
  | .disconnected => true
  | .failed => true
  | _ => false

/-- The prefix of delivered session events the runtime actually
processes: everything up to and including the first terminal event. -/
def processedEvents : List SessionEvent → List SessionEvent
  | [] => []
  | e :: rest => if isTerminalEvent e then [e] else e :: processedEvents rest

/-- Recognises an invocation of the outcome-capture function. -/
def isSaveCall : SessionEvent → Bool
  | .toolCall name _ _ _ => name == "save_call_result"
  | _ => false

theorem postedPayloads_append (xs ys : List RtAction) :
    postedPayloads (xs ++ ys) = postedPayloads xs ++ postedPayloads ys := by
  simp [postedPayloads]

theorem postedPayloads_sendWebhook (p : Payload) (o : WebhookOutcome) :
    postedPayloads (sendWebhookActs p o) = [p] := by
  cases o <;> rfl

theorem postedPayloads_catch (o : WebhookOutcome) (cd : CallData) (msg : String) :
    postedPayloads (catchActs o cd msg) = [.call_error cd.call_id msg] := by
  cases o <;> rfl

/-- C4: if a carrier failure (or any other exception) aborts the setup
before the AI-engine connection is established, the trace contains
exactly one `call_error` payload, carrying the session's `call_id`, and
no `call_result` and no `call_ended`: the listeners that emit those are
only installed after the bridge is up, so the session ends with no
result. -/
theorem C4_carrier_failure_before_ai_only_error (lead : LeadData) (msg : String)
    (evs : List SessionEvent) (f : Nat → WebhookOutcome) (vox now : String) :
    ((postedPayloads (runScenario ⟨.ok lead, .error msg, evs, f, vox, now⟩)).filter
        isErrorPayload = [.call_error lead.call_id msg])
    ∧ (postedPayloads (runScenario ⟨.ok lead, .error msg, evs, f, vox, now⟩)).filter
        isResultPayload = []
    ∧ (postedPayloads (runScenario ⟨.ok lead, .error msg, evs, f, vox, now⟩)).filter
        isEndedPayload = [] := by
  have hposts : postedPayloads (runScenario ⟨.ok lead, .error msg, evs, f, vox, now⟩)
      = [.call_started (mkCallData lead).call_id (mkCallData lead).lead_id
          (mkCallData lead).lead_name (mkCallData lead).lead_type vox now,
         .call_error (mkCallData lead).call_id msg] := by
    cases hf0 : f 0 <;> cases hf1 : f 1 <;>
      simp [runScenario, catchActs, sendWebhookActs, postedPayloads, hf0, hf1]
  rw [hposts]
  refine ⟨?_, rfl, rfl⟩
  simp [List.filter, isErrorPayload, mkCallData]

/-- C10: when `JSON.parse(call.customData())` fails, the catch block
runs with `callData` still the empty object, so the single emitted
webhook is a `call_error` whose `call_id` is `undefined`: after JSON
serialization the envelope has no `call_id` key (only `type` and
`error`), and no `call_started`, `call_result` or `call_ended` is ever
emitted for the session, leaving nothing for the backend to associate
the error with. -/
theorem C10_malformed_payload_error_without_call_id (msg : String)
    (ai : Except String Unit) (evs : List SessionEvent)
    (f : Nat → WebhookOutcome) (vox now : String) :
    (postedPayloads (runScenario ⟨.error msg, ai, evs, f, vox, now⟩)
        = [.call_error none msg])
    ∧ ((Payload.call_error none msg).serializedFields.map Prod.fst) = ["type", "error"]
    ∧ (((Payload.call_error none msg).serializedFields.map Prod.fst).contains "call_id")
        = false := by
  refine ⟨?_, rfl, rfl⟩
  cases hf0 : f 0 <;>
    simp [runScenario, catchActs, sendWebhookActs, postedPayloads, hf0, emptyCallData]

/- ===================================================================
   Result emission counting (C3) and hangup scheduling (C6)
   =================================================================== -/

theorem postedPayloads_toolCall (o : WebhookOutcome) (cd : CallData)
    (name disp : String) (sc : Int) (summ : String) :
    postedPayloads (handleToolCall o cd name disp sc summ)
      = if name = "save_call_result"
        then [.call_result cd.call_id cd.lead_id disp sc summ]
        else [] := by
  by_cases h : name = "save_call_result" <;> cases o <;>
    simp [handleToolCall, postedPayloads, sendWebhookActs, h]

theorem resultPosts_runSession (evs : List SessionEvent) :
    ∀ (f : Nat → WebhookOutcome) (k : Nat) (cd : CallData),
      ((postedPayloads (runSession f k cd evs)).filter isResultPayload).length
        = ((processedEvents evs).filter isSaveCall).length := by
  induction evs with
  | nil => intro f k cd; rfl
  | cons e rest ih =>
      intro f k cd
      cases e with
      | toolCall name disp sc summ =>
          by_cases h : name = "save_call_result" <;>
            simp [runSession, processedEvents, isTerminalEvent, isSaveCall,
              postedPayloads_append, postedPayloads_toolCall, h, isResultPayload,
              List.filter_append, ih f _ cd]
      | disconnected =>
          cases hf : f k <;>
            simp [runSession, processedEvents, isTerminalEvent, isSaveCall,
              sendWebhookActs, postedPayloads, hf, isResultPayload]
      | failed =>
          cases hf : f k <;>
            simp [runSession, processedEvents, isTerminalEvent, isSaveCall,
              sendWebhookActs, postedPayloads, hf, isResultPayload]

/-- A concrete lead context used by the closed counterexample runs. -/
def sampleLead : LeadData :=
  ⟨some "c1", some "l1", some "Dana", some "registration_recovery",
   some "phone_verification", some "+972500000000"⟩

/-- A concrete environment in which the AI engine invokes
`save_call_result` twice during one bridged session. -/
def envTwoSaves : ScenarioEnv :=
  ⟨.ok sampleLead, .ok (), 
   [.toolCall "save_call_result" "NEEDS_HELP" 7 "summary one",
    .toolCall "save_call_result" "NEEDS_HELP" 7 "summary two"],
   fun _ => .response 200, "vox-1", "2025-01-01T00:00:00Z"⟩

/-- C3 counterexample: nothing in the `ToolCall` listener deduplicates
`save_call_result`, so two invocations of the outcome-capture function
in one session produce two `call_result` emissions — more than one per
`call_id`. -/
theorem C3_counterexample :
    ((postedPayloads (runScenario envTwoSaves)).filter isResultPayload).length = 2
    ∧ ¬ ((postedPayloads (runScenario envTwoSaves)).filter isResultPayload).length ≤ 1 := by
  decide

/-- C3 (amended): the runtime emits exactly one `call_result` per
processed invocation of the outcome-capture function; it has no
at-most-once guard, so a second invocation for the same call causes a
second `call_result` emission.  Both for the bridged-session listener
alone and for a full run that reaches the bridge. -/
theorem C3_amended_one_result_per_invocation :
    (∀ (f : Nat → WebhookOutcome) (k : Nat) (cd : CallData) (evs : List SessionEvent),
        ((postedPayloads (runSession f k cd evs)).filter isResultPayload).length
          = ((processedEvents evs).filter isSaveCall).length)
    ∧ ∀ (lead : LeadData) (evs : List SessionEvent) (f : Nat → WebhookOutcome)
        (vox now : String),
        ((postedPayloads (runScenario ⟨.ok lead, .ok (), evs, f, vox, now⟩)).filter
            isResultPayload).length
          = ((processedEvents evs).filter isSaveCall).length := by
  refine ⟨fun f k cd evs => resultPosts_runSession evs f k cd, ?_⟩
  intro lead evs f vox now
  have hsession := resultPosts_runSession evs f 1 (mkCallData lead)
  simp only [postedPayloads] at hsession
  cases hf0 : f 0 <;>
    simp [runScenario, sendWebhookActs, postedPayloads, hf0,
      List.filter_append, isResultPayload, hsession]

/-- Recognises the hangup-scheduling action. -/
def isSched : RtAction → Bool
  | .scheduleHangupAfterMs _ => true
  | _ => false

/-- Holds when an action is not a hangup schedule with a delay other
than 4000 ms. -/
def hangupDelayOk : RtAction → Bool
  | .scheduleHangupAfterMs d => d == 4000
  | _ => true

theorem hangupDelayOk_sendWebhook (p : Payload) (o : WebhookOutcome) :
    ((sendWebhookActs p o).all hangupDelayOk) = true := by
  cases o <;> rfl

theorem sched_count_runSession (evs : List SessionEvent) :
    ∀ (f : Nat → WebhookOutcome) (k : Nat) (cd : CallData),
      ((runSession f k cd evs).filter isSched).length
        = ((processedEvents evs).filter isSaveCall).length := by
  induction evs with
  | nil => intro f k cd; rfl
  | cons e rest ih =>
      intro f k cd
      cases e with
      | toolCall name disp sc summ =>
          by_cases h : name = "save_call_result" <;> cases hf : f k <;>
            simp [runSession, handleToolCall, sendWebhookActs, processedEvents,
              isTerminalEvent, isSaveCall, h, hf, isSched, List.filter_append, ih f _ cd]
      | disconnected =>
          cases hf : f k <;>
            simp [runSession, sendWebhookActs, processedEvents, isTerminalEvent,
              isSaveCall, hf, isSched]
      | failed =>
          cases hf : f k <;>
            simp [runSession, sendWebhookActs, processedEvents, isTerminalEvent,
              isSaveCall, hf, isSched]

theorem hangupDelayOk_runSession (evs : List SessionEvent) :
    ∀ (f : Nat → WebhookOutcome) (k : Nat) (cd : CallData),
      ((runSession f k cd evs).all hangupDelayOk) = true := by
  induction evs with
  | nil => intro f k cd; rfl
  | cons e rest ih =>
      intro f k cd
      cases e with
      | toolCall name disp sc summ =>
          by_cases h : name = "save_call_result" <;> cases hf : f k <;>
            simp [runSession, handleToolCall, sendWebhookActs, h, hf,
              List.all_append, hangupDelayOk, ih f _ cd]
      | disconnected =>
          cases hf : f k <;>
            simp [runSession, sendWebhookActs, hf, List.all_append, hangupDelayOk]
      | failed =>
          cases hf : f k <;>
            simp [runSession, sendWebhookActs, hf, List.all_append, hangupDelayOk]

/-- C6: whenever the outcome-capture function fires (and is processed
before the terminal event), the runtime schedules exactly one hangup of
the call leg, and every hangup it ever schedules uses the fixed grace
delay of 4000 ms (4 seconds): `setTimeout(() => call.hangup(), 4000)`. -/
theorem C6_grace_delay_then_hangup :
    (∀ env : ScenarioEnv, ((runScenario env).all hangupDelayOk) = true)
    ∧ ∀ (f : Nat → WebhookOutcome) (k : Nat) (cd : CallData) (evs : List SessionEvent),
        ((runSession f k cd evs).filter isSched).length
          = ((processedEvents evs).filter isSaveCall).length := by
  refine ⟨?_, fun f k cd evs => sched_count_runSession evs f k cd⟩
  intro env
  obtain ⟨cdRaw, ai, evs, f, vox, now⟩ := env
  cases cdRaw with
  | error msg =>
      cases hf0 : f 0 <;>
        simp [runScenario, catchActs, sendWebhookActs, hf0, List.all_append,
          hangupDelayOk]
  | ok lead =>
      cases ai with
      | error msg =>
          cases hf0 : f 0 <;> cases hf1 : f 1 <;>
            simp [runScenario, catchActs, sendWebhookActs, hf0, hf1,
              List.all_append, hangupDelayOk]
      | ok u =>
          cases hf0 : f 0 <;>
            simp [runScenario, sendWebhookActs, hf0, List.all_append, hangupDelayOk,
              hangupDelayOk_runSession evs f 1 (mkCallData lead)]

/- ===================================================================
   Webhook delivery is best effort and invisible to control flow (C7)
   =================================================================== -/

/-- Normal form of a bridged session's runtime steps: the steps taken
are fully determined by the call data and the delivered events, not by
how any webhook POST settles. -/
def sessionSteps (cd : CallData) : List SessionEvent → List RtAction
  | [] => []
  | .toolCall name disp sc summ :: rest =>
      (if name = "save_call_result"
       then [.httpPost (.call_result cd.call_id cd.lead_id disp sc summ),
             .toolResponseSent, .scheduleHangupAfterMs 4000]
       else []) ++ sessionSteps cd rest
  | .disconnected :: _ =>
      [.httpPost (.call_ended cd.call_id), .closeAI, .terminateScenario]
  | .failed :: _ =>
      [.httpPost (.call_ended cd.call_id), .closeAI, .terminateScenario]

theorem filterRuntime_sendWebhook (p : Payload) (o : WebhookOutcome) :
    (sendWebhookActs p o).filter isRuntimeStep = [.httpPost p] := by
  cases o <;> rfl

theorem filterRuntime_catch (o : WebhookOutcome) (cd : CallData) (msg : String) :
    (catchActs o cd msg).filter isRuntimeStep
      = [.httpPost (.call_error cd.call_id msg), .hangupCall, .terminateScenario] := by
  cases o <;> rfl

theorem filterRuntime_runSession (evs : List SessionEvent) :
    ∀ (f : Nat → WebhookOutcome) (k : Nat) (cd : CallData),
      (runSession f k cd evs).filter isRuntimeStep = sessionSteps cd evs := by
  induction evs with
  | nil => intro f k cd; rfl
  | cons e rest ih =>
      intro f k cd
      cases e with
      | toolCall name disp sc summ =>
          by_cases h : name = "save_call_result" <;> cases hf : f k <;>
            simp [runSession, handleToolCall, sendWebhookActs, sessionSteps, h, hf,
              List.filter_append, isRuntimeStep, isLogAct, isSettle, ih f _ cd]
      | disconnected =>
          cases hf : f k <;>
            simp [runSession, sendWebhookActs, sessionSteps, hf,
              isRuntimeStep, isLogAct, isSettle]
      | failed =>
          cases hf : f k <;>
            simp [runSession, sendWebhookActs, sessionSteps, hf,
              isRuntimeStep, isLogAct, isSettle]

/-- Normal form of a whole run's runtime steps, independent of the
webhook outcomes. -/
def scenarioSteps (customData : Except String LeadData) (ai : Except String Unit)
    (evs : List SessionEvent) (vox now : String) : List RtAction :=
  [.answerCall] ++
  match customData with
  | .error msg =>
      [.httpPost (.call_error none msg), .hangupCall, .terminateScenario]
  | .ok lead =>
      let cd := mkCallData lead
      [.httpPost (.call_started cd.call_id cd.lead_id cd.lead_name cd.lead_type vox now),
       .connectAI] ++
      match ai with
      | .error msg =>
          [.httpPost (.call_error cd.call_id msg), .hangupCall, .terminateScenario]
      | .ok _ => [.bridgeAudio] ++ sessionSteps cd evs

theorem filterRuntime_runScenario (customData : Except String LeadData)
    (ai : Except String Unit) (evs : List SessionEvent)
    (f : Nat → WebhookOutcome) (vox now : String) :
    (runScenario ⟨customData, ai, evs, f, vox, now⟩).filter isRuntimeStep
      = scenarioSteps customData ai evs vox now := by
  cases customData with
  | error msg =>
      cases hf0 : f 0 <;>
        simp [runScenario, catchActs, sendWebhookActs, scenarioSteps, emptyCallData, hf0,
          isRuntimeStep, isLogAct, isSettle]
  | ok lead =>
      cases ai with
      | error msg =>
          cases hf0 : f 0 <;> cases hf1 : f 1 <;>
            simp [runScenario, catchActs, sendWebhookActs, scenarioSteps, hf0, hf1,
              List.filter_append, isRuntimeStep, isLogAct, isSettle]
      | ok u =>
          cases hf0 : f 0 <;>
            simp [runScenario, sendWebhookActs, scenarioSteps, hf0,
              List.filter_append, isRuntimeStep, isLogAct, isSettle,
              filterRuntime_runSession evs f 1 (mkCallData lead)]

/-- C7: the webhook sender performs a single best-effort POST per
event.  A network error only produces a failure log; a response —
whatever its status, 2xx or not — only produces a success log, with no
status check, no retry and no escalation in either case; and the
settlement of the POSTs never changes the runtime's subsequent steps:
two runs differing only in webhook outcomes take exactly the same
runtime steps. -/
theorem C7_webhook_single_best_effort_post :
    (∀ (p : Payload) (o : WebhookOutcome),
        (sendWebhookActs p o).filter isPost = [.httpPost p])
    ∧ (∀ (p : Payload) (st : Nat),
        sendWebhookActs p (.response st)
          = [.httpPost p, .httpResponse st, .log ("Webhook sent: " ++ p.typeName)])
    ∧ (∀ (p : Payload) (m : String),
        sendWebhookActs p (.networkError m)
          = [.httpPost p, .httpFailure m, .log ("Failed to send webhook: " ++ m)])
    ∧ ∀ (customData : Except String LeadData) (ai : Except String Unit)
        (evs : List SessionEvent) (f g : Nat → WebhookOutcome) (vox now : String),
        (runScenario ⟨customData, ai, evs, f, vox, now⟩).filter isRuntimeStep
          = (runScenario ⟨customData, ai, evs, g, vox, now⟩).filter isRuntimeStep := by
  refine ⟨fun p o => by cases o <;> rfl, fun p st => rfl, fun p m => rfl, ?_⟩
  intro customData ai evs f g vox now
  rw [filterRuntime_runScenario, filterRuntime_runScenario]

/- ===================================================================
   The runtime awaits each webhook POST before proceeding (C5)
   =================================================================== -/

/-- Holds when the list does not end in an unsettled POST. -/
def lastNotPost : List RtAction → Bool
  | [] => true
  | [a] => !(isPost a)
  | _ :: b :: rest => lastNotPost (b :: rest)

/-- Holds when every webhook POST in the trace is immediately followed
by its settlement — i.e. the runtime awaited the POST's promise before
taking any further step. -/
def awaitsEachPost : List RtAction → Bool
  | [] => true
  | [a] => !(isPost a)
  | a :: b :: rest => (!(isPost a) || isSettle b) && awaitsEachPost (b :: rest)

theorem lastNotPost_append : ∀ xs ys : List RtAction,
    lastNotPost xs = true → lastNotPost ys = true → lastNotPost (xs ++ ys) = true
  | xs, [], hx, _ => by simpa using hx
  | [], b :: t, _, hy => hy
  | [a], b :: t, _, hy => by simpa [lastNotPost] using hy
  | a :: a2 :: t, b :: t2, hx, hy => by
      have ih := lastNotPost_append (a2 :: t) (b :: t2)
        (by simpa [lastNotPost] using hx) hy
      simpa [lastNotPost] using ih

theorem awaitsEachPost_append : ∀ xs ys : List RtAction,
    awaitsEachPost xs = true → lastNotPost xs = true → awaitsEachPost ys = true →
    awaitsEachPost (xs ++ ys) = true
  | [], ys, _, _, hy => hy
  | [a], ys, _, hl, hy => by
      cases ys with
      | nil => simpa using hl
      | cons b t =>
          have ha : (!(isPost a)) = true := by simpa [lastNotPost] using hl
          simp [awaitsEachPost, ha, hy]
  | a :: a2 :: t, ys, hx, hl, hy => by
      simp only [awaitsEachPost, Bool.and_eq_true] at hx
      have ih := awaitsEachPost_append (a2 :: t) ys hx.2
        (by simpa [lastNotPost] using hl) hy
      simp only [List.cons_append, awaitsEachPost, Bool.and_eq_true]
      exact ⟨hx.1, by simpa [List.cons_append] using ih⟩

theorem goodPost_append {xs ys : List RtAction}
    (hx : awaitsEachPost xs = true ∧ lastNotPost xs = true)
    (hy : awaitsEachPost ys = true ∧ lastNotPost ys = true) :
    awaitsEachPost (xs ++ ys) = true ∧ lastNotPost (xs ++ ys) = true :=
  ⟨awaitsEachPost_append _ _ hx.1 hx.2 hy.1, lastNotPost_append _ _ hx.2 hy.2⟩

theorem goodPost_sendWebhook (p : Payload) (o : WebhookOutcome) :
    awaitsEachPost (sendWebhookActs p o) = true
    ∧ lastNotPost (sendWebhookActs p o) = true := by
  cases o <;> exact ⟨rfl, rfl⟩

theorem goodPost_catch (o : WebhookOutcome) (cd : CallData) (msg : String) :
    awaitsEachPost (catchActs o cd msg) = true
    ∧ lastNotPost (catchActs o cd msg) = true := by
  cases o <;> exact ⟨rfl, rfl⟩

theorem goodPost_toolCall (o : WebhookOutcome) (cd : CallData)
    (name disp : String) (sc : Int) (summ : String) :
    awaitsEachPost (handleToolCall o cd name disp sc summ) = true
    ∧ lastNotPost (handleToolCall o cd name disp sc summ) = true := by
  by_cases h : name = "save_call_result"
  · cases o <;> simp [handleToolCall, sendWebhookActs, h, awaitsEachPost, lastNotPost,
      isPost, isSettle]
  · simp [handleToolCall, h, awaitsEachPost, lastNotPost, isPost]

theorem goodPost_runSession (evs : List SessionEvent) :
    ∀ (f : Nat → WebhookOutcome) (k : Nat) (cd : CallData),
      awaitsEachPost (runSession f k cd evs) = true
      ∧ lastNotPost (runSession f k cd evs) = true := by
  induction evs with
  | nil => intro f k cd; exact ⟨rfl, rfl⟩
  | cons e rest ih =>
      intro f k cd
      cases e with
      | toolCall name disp sc summ =>
          show awaitsEachPost (handleToolCall (f k) cd name disp sc summ ++ _) = true ∧ _
          exact goodPost_append (goodPost_toolCall (f k) cd name disp sc summ) (ih f _ cd)
      | disconnected =>
          simp only [runSession]
          have h1 : awaitsEachPost [RtAction.log "Call disconnected"] = true
              ∧ lastNotPost [RtAction.log "Call disconnected"] = true := ⟨rfl, rfl⟩
          have h2 : awaitsEachPost [RtAction.closeAI, RtAction.terminateScenario] = true
              ∧ lastNotPost [RtAction.closeAI, RtAction.terminateScenario] = true :=
            ⟨rfl, rfl⟩
          exact goodPost_append (goodPost_append h1 (goodPost_sendWebhook _ (f k))) h2
      | failed =>
          simp only [runSession]
          have h1 : awaitsEachPost [RtAction.log "Call failed"] = true
              ∧ lastNotPost [RtAction.log "Call failed"] = true := ⟨rfl, rfl⟩
          have h2 : awaitsEachPost [RtAction.closeAI, RtAction.terminateScenario] = true
              ∧ lastNotPost [RtAction.closeAI, RtAction.terminateScenario] = true :=
            ⟨rfl, rfl⟩
          exact goodPost_append (goodPost_append h1 (goodPost_sendWebhook _ (f k))) h2

/-- C5 (amended): event emission happens inline in the transition, and
the runtime awaits each webhook POST's settlement — the response, or
the network failure caught inside `sendWebhook` — before taking its
next step: in every possible run, each `httpPost` is immediately
followed by its settlement before any further action. -/
theorem C5_amended_awaits_each_post (env : ScenarioEnv) :
    awaitsEachPost (runScenario env) = true := by
  obtain ⟨cdRaw, ai, evs, f, vox, now⟩ := env
  have hA : awaitsEachPost [RtAction.answerCall, RtAction.log "Call answered"] = true
      ∧ lastNotPost [RtAction.answerCall, RtAction.log "Call answered"] = true :=
    ⟨rfl, rfl⟩
  have hB1 : awaitsEachPost [RtAction.log "Calling lead"] = true
      ∧ lastNotPost [RtAction.log "Calling lead"] = true := ⟨rfl, rfl⟩
  have hB2 : awaitsEachPost
        [RtAction.log "Initializing Gemini Live API...", RtAction.connectAI] = true
      ∧ lastNotPost
        [RtAction.log "Initializing Gemini Live API...", RtAction.connectAI] = true :=
    ⟨rfl, rfl⟩
  have hB3 : awaitsEachPost
        [RtAction.log "Connected to Gemini Live API", RtAction.bridgeAudio,
          RtAction.log "Audio bridge established"] = true
      ∧ lastNotPost
        [RtAction.log "Connected to Gemini Live API", RtAction.bridgeAudio,
          RtAction.log "Audio bridge established"] = true := ⟨rfl, rfl⟩
  cases cdRaw with
  | error msg =>
      exact (goodPost_append hA (goodPost_catch (f 0) emptyCallData msg)).1
  | ok lead =>
      cases ai with
      | error msg =>
          exact (goodPost_append hA
            (goodPost_append
              (goodPost_append
                (goodPost_append hB1 (goodPost_sendWebhook _ (f 0))) hB2)
              (goodPost_catch (f 1) (mkCallData lead) msg))).1
      | ok u =>
          exact (goodPost_append hA
            (goodPost_append
              (goodPost_append
                (goodPost_append hB1 (goodPost_sendWebhook _ (f 0))) hB2)
              (goodPost_append hB3
                (goodPost_runSession evs f 1 (mkCallData lead))))).1

/-- A concrete environment for a run that parses, connects and receives
no session events. -/
def envHappy : ScenarioEnv :=
  ⟨.ok sampleLead, .ok (), [], fun _ => .response 200, "vox-1", "2025-01-01T00:00:00Z"⟩

/-- C5 counterexample: in a concrete run, the settlement of the
`call_started` POST occurs strictly before the runtime initiates the
AI-engine connection (the next step of the transition) — the runtime
does wait for the webhook POST's response before proceeding, refuting
the claim that it does not. -/
theorem C5_counterexample :
    ((runScenario envHappy).findIdx isSettle
        < (runScenario envHappy).findIdx fun a => decide (a = RtAction.connectAI))
    ∧ ¬ (((runScenario envHappy).findIdx fun a => decide (a = RtAction.connectAI))
        < (runScenario envHappy).findIdx isSettle) := by
  decide
